import Mathlib

/-!
Verification of the Oh My Codex website client-side behavior layer
(`src/unnamed/part_000`, the stats-enabled variant).

The JavaScript is a collection of DOM event handlers with small amounts of
state.  Each handler is embedded as a pure Lean function over an explicit
state record; browser effects (HTTP GETs, scroll commands, history pushes,
scheduled timers) are reified as data in the result of each function, so that the
claims about "what the handler does" become statements about those results.
-/

namespace OMX

/-! ## Number formatting (`formatNumber`, lines 285-293) -/

/-- Model of `Number.prototype.toFixed(1)` applied to `num / den`, in exact
arithmetic: round half up to one decimal digit.  This agrees with the
JavaScript on every value the claims mention (the binary-double rounding of
`toFixed` is abstracted to exact decimal rounding). -/
def toFixed1 (num den : Nat) : String :=
  let tenths := (num * 10 + den / 2) / den
  toString (tenths / 10) ++ "." ++ toString (tenths % 10)

/-- Embedding of `formatNumber` (lines 285-293): numbers at or above one
million render as one-decimal millions with suffix `M`, at or above one
thousand as one-decimal thousands with suffix `k`, smaller numbers verbatim. -/
def formatNumber (num : Nat) : String :=
  if num ≥ 1000000 then
    toFixed1 num 1000000 ++ "M"
  else if num ≥ 1000 then
    toFixed1 num 1000 ++ "k"
  else
    toString num

/-! ## Stats payloads and UI rendering (lines 337-347, 388-393) -/

/-- Payload handed to `updateGitHubUI`: `{ stars, forks }`, where `none`
models the JavaScript `null` used on the failure path (line 333). -/
structure GHStats where
  stars : Option Nat
  forks : Option Nat
  deriving DecidableEq

/-- Embedding of `updateGitHubUI` (lines 337-347): the pair of strings written
to the `github-stars` and `github-forks` badge elements.  A `null` field
renders as the em-dash placeholder. -/
def updateGitHubUI (stats : GHStats) : String × String :=
  ((match stats.stars with
    | some n => formatNumber n
    | none => "—"),
   (match stats.forks with
    | some n => formatNumber n
    | none => "—"))

/-- Embedding of `updateNpmUI` (lines 388-393): the string written to the
`npm-downloads` badge element. -/
def updateNpmUI (downloads : Option Nat) : String :=
  match downloads with
  | some n => formatNumber n
  | none => "—"

/-! ## Session-storage cache and the two stat fetchers (lines 299-335, 353-386) -/

/-- The cache time-to-live: `5 * 60 * 1000` milliseconds (lines 301, 355). -/
def cacheTTL : Nat := 5 * 60 * 1000

/-- A parsed session-storage entry `{ data, timestamp }` (lines 307, 325-328). -/
structure CacheEntry (α : Type) where
  data : α
  timestamp : Nat
  deriving DecidableEq

/-- Outcome of the single `fetch` a fetcher may issue: success carries the
extracted numeric payload; the three failure modes are a network error (the
`fetch` promise rejects), a non-success HTTP status (line 316/370 throws), and
a body that fails JSON parsing (`response.json()` rejects). -/
inductive FetchOutcome (α : Type)
  | success (a : α)
  | networkError
  | httpError
  | malformedBody
  deriving DecidableEq

/-- Whether a fetch outcome is one of the three failure modes. -/
def FetchOutcome.isFailure {α : Type} : FetchOutcome α → Bool
  | .success _ => false
  | _ => true

/-- Result of running a stat fetcher: how many HTTP GETs it issued, what it
rendered into the GitHub badges, and the cache entry left in session storage. -/
structure GHFetchResult where
  requests : Nat
  ui : String × String
  cacheAfter : Option (CacheEntry GHStats)
  deriving DecidableEq

/-- The fresh-fetch part of `fetchGitHubStats` (lines 314-334): issue one GET;
on success extract `{ stars, forks }`, overwrite the cache with the new entry
timestamped `now`, and render it; on any failure leave the cache untouched and
render the all-null payload (the `catch` block, lines 331-334). -/
def fetchGitHubFresh (cache : Option (CacheEntry GHStats)) (now : Nat)
    (net : FetchOutcome (Nat × Nat)) : GHFetchResult :=
  match net with
  | .success (st, fk) =>
      let stats : GHStats := ⟨some st, some fk⟩
      ⟨1, updateGitHubUI stats, some ⟨stats, now⟩⟩
  | _ => ⟨1, updateGitHubUI ⟨none, none⟩, cache⟩

/-- Embedding of `fetchGitHubStats` (lines 299-335).  `cache` is the parsed
entry under `omx-github-stats` (or `none`), `now` is `Date.now()`, and `net`
is the outcome the network would produce if a GET were issued.  If a cached
entry is younger than the TTL it is rendered with no GET (lines 305-312);
otherwise exactly one GET happens.  `Date.now() - timestamp` is modelled with
truncated `Nat` subtraction, which like the JavaScript treats a future
timestamp as fresh. -/
def fetchGitHubStats (cache : Option (CacheEntry GHStats)) (now : Nat)
    (net : FetchOutcome (Nat × Nat)) : GHFetchResult :=
  match cache with
  | some entry =>
      if now - entry.timestamp < cacheTTL then
        ⟨0, updateGitHubUI entry.data, some entry⟩
      else
        fetchGitHubFresh (some entry) now net
  | none => fetchGitHubFresh none now net

/-- Result of running the npm fetcher: requests issued, badge text rendered,
and the cache entry left under `omx-npm-downloads`. -/
structure NpmFetchResult where
  requests : Nat
  ui : String
  cacheAfter : Option (CacheEntry Nat)
  deriving DecidableEq

/-- The fresh-fetch part of `fetchNpmDownloads` (lines 368-385). -/
def fetchNpmFresh (cache : Option (CacheEntry Nat)) (now : Nat)
    (net : FetchOutcome Nat) : NpmFetchResult :=
  match net with
  | .success d => ⟨1, updateNpmUI (some d), some ⟨d, now⟩⟩
  | _ => ⟨1, updateNpmUI none, cache⟩

/-- Embedding of `fetchNpmDownloads` (lines 353-386), structured exactly like
`fetchGitHubStats` but with a single download count as payload. -/
def fetchNpmDownloads (cache : Option (CacheEntry Nat)) (now : Nat)
    (net : FetchOutcome Nat) : NpmFetchResult :=
  match cache with
  | some entry =>
      if now - entry.timestamp < cacheTTL then
        ⟨0, updateNpmUI (some entry.data), some entry⟩
      else
        fetchNpmFresh (some entry) now net
  | none => fetchNpmFresh none now net

/-- A fetcher reaches the network branch exactly when the cache entry is
missing or its age is at least the TTL (negation of the test on lines 308/362). -/
def staleOrMissing {α : Type} : Option (CacheEntry α) → Nat → Bool
  | none, _ => true
  | some e, now => decide (cacheTTL ≤ now - e.timestamp)

/-! ## Sticky navigation (`handleNavScroll`, lines 92-116) -/

/-- The slice of `AppState` and of the class list of the nav element touched by
`handleNavScroll`: scroll direction, previous offset, visibility flag, and
the `scrolled` / `hidden` classes. -/
structure NavState where
  scrollDirection : String
  lastScrollY : Nat
  navVisible : Bool
  navScrolled : Bool
  navHidden : Bool
  deriving DecidableEq

/-- Embedding of `handleNavScroll` (lines 92-116): toggle the `scrolled`
class at the 50px threshold, classify the scroll as downward exactly when the
current offset exceeds both the previous offset and 100px (hiding the nav),
otherwise as upward (showing it), and record the current offset as previous. -/
def handleNavScroll (s : NavState) (currentScrollY : Nat) : NavState :=
  if s.lastScrollY < currentScrollY ∧ 100 < currentScrollY then
    { scrollDirection := "down", lastScrollY := currentScrollY,
      navVisible := false, navScrolled := decide (50 < currentScrollY),
      navHidden := true }
  else
    { scrollDirection := "up", lastScrollY := currentScrollY,
      navVisible := true, navScrolled := decide (50 < currentScrollY),
      navHidden := false }

/-! ## Mobile menu (`setupMobileMenu`, lines 123-174) -/

/-- The four user events the mobile-menu controller listens for. -/
inductive MenuEvent
  | hamburger
  | overlayClick
  | linkClick
  | escape
  deriving DecidableEq

/-- The DOM state the menu controller touches: the `active` class on the
links container, the hamburger, and the overlay, `document.body.style.overflow`,
and the `AppState.mobileMenuOpen` flag. -/
structure MenuState where
  navLinksActive : Bool
  hamburgerActive : Bool
  overlayActive : Bool
  bodyOverflow : String
  mobileMenuOpen : Bool
  deriving DecidableEq

/-- State at page load: no `active` classes, default body overflow, flag
false (line 15). -/
def menuInitState : MenuState :=
  ⟨false, false, false, "", false⟩

/-- Embedding of `openMobileMenu` (lines 159-165).  `hasOverlay` records
whether the page has a `.nav__overlay` element (the `if (overlay)` guards). -/
def openMobileMenu (hasOverlay : Bool) (s : MenuState) : MenuState :=
  { navLinksActive := true, hamburgerActive := true,
    overlayActive := if hasOverlay then true else s.overlayActive,
    bodyOverflow := "hidden", mobileMenuOpen := true }

/-- Embedding of `closeMobileMenu` (lines 167-173). -/
def closeMobileMenu (hasOverlay : Bool) (s : MenuState) : MenuState :=
  { navLinksActive := false, hamburgerActive := false,
    overlayActive := if hasOverlay then false else s.overlayActive,
    bodyOverflow := "", mobileMenuOpen := false }

/-- Embedding of `toggleMobileMenu` (lines 151-157). -/
def toggleMobileMenu (hasOverlay : Bool) (s : MenuState) : MenuState :=
  if s.mobileMenuOpen then closeMobileMenu hasOverlay s
  else openMobileMenu hasOverlay s

/-- One menu event as dispatched by the listeners of `setupMobileMenu`:
hamburger click toggles (line 131); overlay click closes when an overlay
exists (lines 134-136); any nav-link click closes (lines 139-142); Escape
closes only when the menu is open (lines 145-149). -/
def menuStep (hasOverlay : Bool) (s : MenuState) : MenuEvent → MenuState
  | .hamburger => toggleMobileMenu hasOverlay s
  | .overlayClick => if hasOverlay then closeMobileMenu hasOverlay s else s
  | .linkClick => closeMobileMenu hasOverlay s
  | .escape => if s.mobileMenuOpen then closeMobileMenu hasOverlay s else s

/-- A whole sequence of menu events, left to right. -/
def runMenu (hasOverlay : Bool) (s : MenuState) (es : List MenuEvent) : MenuState :=
  es.foldl (menuStep hasOverlay) s

/-- Spec-side two-state machine on the open flag alone: hamburger toggles,
every other event forces closed. -/
def specMenuFlag (b : Bool) : MenuEvent → Bool
  | .hamburger => !b
  | _ => false

/-- Spec-side machine run over a sequence of events. -/
def specRunFlags (b : Bool) (es : List MenuEvent) : Bool :=
  es.foldl specMenuFlag b

/-- Styling invariant claimed for the menu: each `active` class (and the
overlay class, when an overlay exists) and the body-overflow suppression
track the `mobileMenuOpen` flag exactly. -/
def menuInv (hasOverlay : Bool) (s : MenuState) : Prop :=
  s.navLinksActive = s.mobileMenuOpen ∧
  s.hamburgerActive = s.mobileMenuOpen ∧
  (hasOverlay = true → s.overlayActive = s.mobileMenuOpen) ∧
  (hasOverlay = false → s.overlayActive = false) ∧
  s.bodyOverflow = (if s.mobileMenuOpen then "hidden" else "")

instance (hasOverlay : Bool) (s : MenuState) : Decidable (menuInv hasOverlay s) := by
  unfold menuInv
  infer_instance

/-! ## Copy buttons (`setupCopyButtons`, lines 180-211) -/

/-- Result of the clipboard write attempt (line 191). -/
inductive ClipboardOutcome
  | ok
  | failed
  deriving DecidableEq

/-- The visible state of a copy button: its label and the `copied` class. -/
structure ButtonState where
  label : String
  copied : Bool
  deriving DecidableEq

/-- A pending `setTimeout` callback of the click handler, reified: at
`fireAt`, set the label to `newLabel` and, on the success path, remove the
`copied` class. -/
structure TimerTask where
  fireAt : Nat
  newLabel : String
  removeCopied : Bool
  deriving DecidableEq

/-- Run one fired timer callback on the button (lines 198-201 and 205-207). -/
def applyTask (b : ButtonState) (k : TimerTask) : ButtonState :=
  { label := k.newLabel,
    copied := if k.removeCopied then false else b.copied }

/-- Embedding of one click-handler run (lines 190-208), after the code block
was found: on clipboard success, capture the current label as `originalText`,
show `Copied!`, add the `copied` class, and schedule a restore of the
captured label 2000ms later; on failure, show `Failed` and schedule the
literal label `Copy` 2000ms later.  Returns the immediate button state and
the scheduled callback. -/
def copyClick (b : ButtonState) (t : Nat) : ClipboardOutcome → ButtonState × TimerTask
  | .ok => (⟨"Copied!", true⟩, ⟨t + 2000, b.label, true⟩)
  | .failed => (⟨"Failed", b.copied⟩, ⟨t + 2000, "Copy", false⟩)

/-- A button together with its pending timers, kept in firing order (earlier
`fireAt` first; ties keep scheduling order, as in the event loop). -/
structure CopySystem where
  button : ButtonState
  timers : List TimerTask
  deriving DecidableEq

/-- Insert a newly scheduled timer into the pending queue.  `setTimeout` does
not cancel anything: the new callback is queued alongside the existing ones. -/
def schedule : List TimerTask → TimerTask → List TimerTask
  | [], k => [k]
  | k0 :: rest, k =>
      if k0.fireAt ≤ k.fireAt then k0 :: schedule rest k
      else k :: k0 :: rest

/-- A click on the button at time `t` with the given clipboard outcome. -/
def sysClick (s : CopySystem) (t : Nat) (o : ClipboardOutcome) : CopySystem :=
  let r := copyClick s.button t o
  ⟨r.1, schedule s.timers r.2⟩

/-- Let every pending timer fire, in order. -/
def runTimers (s : CopySystem) : ButtonState :=
  s.timers.foldl applyTask s.button

/-- A page with two copy buttons; the handler of each button closes over its own
state, so a click on the first touches only the first. -/
def clickFst (p : CopySystem × CopySystem) (t : Nat) (o : ClipboardOutcome) :
    CopySystem × CopySystem :=
  (sysClick p.1 t o, p.2)

/-- A click on the second of two copy buttons. -/
def clickSnd (p : CopySystem × CopySystem) (t : Nat) (o : ClipboardOutcome) :
    CopySystem × CopySystem :=
  (p.1, sysClick p.2 t o)

/-! ## Smooth anchor scrolling (`setupSmoothScroll`, lines 217-245) -/

/-- The page state the anchor-click handler can observe or change: the
vertical scroll offset, the visible URL fragment, and the length of the
session history. -/
structure PageState where
  scrollY : Int
  fragment : String
  historyLen : Nat
  deriving DecidableEq

/-- Model of `document.querySelector(targetId)` over the elements of the page,
listed as pairs of a selector (`#id`) and its
`getBoundingClientRect().top`: the first match wins. -/
def domFind : List (String × Int) → String → Option Int
  | [], _ => none
  | (sel, top) :: rest, targetId =>
      if sel = targetId then some top else domFind rest targetId

/-- What one anchor click did: the page state afterwards, the smooth-scroll
command issued (target offset), and whether the default action was
suppressed. -/
structure ClickResult where
  page : PageState
  scrollCommand : Option Int
  defaultPrevented : Bool
  deriving DecidableEq

/-- Embedding of the anchor-click handler (lines 221-243): a bare `#` href is
ignored; a fragment with no matching element is ignored; otherwise the
default jump is prevented, a smooth scroll to
(target top + current scroll − 80) is issued, and `history.pushState`
rewrites the fragment while appending one history entry — the push itself
moves neither the scroll position nor issues a scroll command. -/
def smoothScrollClick (dom : List (String × Int)) (p : PageState)
    (href : String) : ClickResult :=
  if href = "#" then ⟨p, none, false⟩
  else
    match domFind dom href with
    | none => ⟨p, none, false⟩
    | some top =>
        let offsetPosition := top + p.scrollY - 80
        ⟨⟨p.scrollY, href, p.historyLen + 1⟩, some offsetPosition, true⟩

/-! ## Helper lemmas -/

/-- Every branch of the fresh GitHub fetch issues exactly one GET. -/
theorem fetchGitHubFresh_requests (c : Option (CacheEntry GHStats)) (now : Nat)
    (net : FetchOutcome (Nat × Nat)) : (fetchGitHubFresh c now net).requests = 1 := by
  cases net with
  | success a => cases a; rfl
  | networkError => rfl
  | httpError => rfl
  | malformedBody => rfl

/-- Every branch of the fresh npm fetch issues exactly one GET. -/
theorem fetchNpmFresh_requests (c : Option (CacheEntry Nat)) (now : Nat)
    (net : FetchOutcome Nat) : (fetchNpmFresh c now net).requests = 1 := by
  cases net with
  | success d => rfl
  | networkError => rfl
  | httpError => rfl
  | malformedBody => rfl

/-! ## Claim theorems -/

/-- C1: for each stat fetcher, a cached entry strictly younger than the
5-minute TTL at fetch start is rendered with zero HTTP GETs issued, while a
missing or 5-minutes-or-older entry leads to exactly one HTTP GET. -/
theorem c1_stat_cache_ttl
    (gc : Option (CacheEntry GHStats)) (nc : Option (CacheEntry Nat)) (now : Nat)
    (gnet : FetchOutcome (Nat × Nat)) (nnet : FetchOutcome Nat) :
    (∀ e, gc = some e → now - e.timestamp < cacheTTL →
      (fetchGitHubStats gc now gnet).requests = 0 ∧
      (fetchGitHubStats gc now gnet).ui = updateGitHubUI e.data) ∧
    (staleOrMissing gc now = true → (fetchGitHubStats gc now gnet).requests = 1) ∧
    (∀ e, nc = some e → now - e.timestamp < cacheTTL →
      (fetchNpmDownloads nc now nnet).requests = 0 ∧
      (fetchNpmDownloads nc now nnet).ui = updateNpmUI (some e.data)) ∧
    (staleOrMissing nc now = true → (fetchNpmDownloads nc now nnet).requests = 1) := by
  refine ⟨?_, ?_, ?_, ?_⟩
  · rintro e rfl hlt
    simp [fetchGitHubStats, hlt]
  · intro hstale
    match gc with
    | none => simp [fetchGitHubStats, fetchGitHubFresh_requests]
    | some e =>
        simp only [staleOrMissing, decide_eq_true_eq] at hstale
        have hnot : ¬ (now - e.timestamp < cacheTTL) := by omega
        simp [fetchGitHubStats, hnot, fetchGitHubFresh_requests]
  · rintro e rfl hlt
    simp [fetchNpmDownloads, hlt]
  · intro hstale
    match nc with
    | none => simp [fetchNpmDownloads, fetchNpmFresh_requests]
    | some e =>
        simp only [staleOrMissing, decide_eq_true_eq] at hstale
        have hnot : ¬ (now - e.timestamp < cacheTTL) := by omega
        simp [fetchNpmDownloads, hnot, fetchNpmFresh_requests]

/-- Witness for C1 at concrete inputs: a 1-second-old GitHub entry is served
from cache with no request, and a missing npm entry leads to one request. -/
theorem c1_stat_cache_ttl_witness :
    (fetchGitHubStats (some ⟨⟨some 5, some 2⟩, 0⟩) 1000 .networkError).requests = 0 ∧
    (fetchGitHubStats (some ⟨⟨some 5, some 2⟩, 0⟩) 1000 .networkError).ui =
      updateGitHubUI ⟨some 5, some 2⟩ ∧
    (fetchNpmDownloads none 1000 (.success 7)).requests = 1 := by
  have h := c1_stat_cache_ttl (some ⟨⟨some 5, some 2⟩, 0⟩) none 1000 .networkError (.success 7)
  have hg := h.1 ⟨⟨some 5, some 2⟩, 0⟩ rfl (by decide)
  exact ⟨hg.1, hg.2, h.2.2.2 (by decide)⟩

/-- C2: for each stat fetcher, when a refresh attempt actually happens (cache
missing or stale) and the fetch fails in any of the three failure modes, the
cache entry under the key of that fetcher is unchanged and every badge of
that fetcher is rendered with the em-dash placeholder; the embedded fetchers
are total functions, so no error escapes them. -/
theorem c2_failure_keeps_cache
    (gc : Option (CacheEntry GHStats)) (nc : Option (CacheEntry Nat)) (now : Nat)
    (gnet : FetchOutcome (Nat × Nat)) (nnet : FetchOutcome Nat) :
    (staleOrMissing gc now = true → gnet.isFailure = true →
      (fetchGitHubStats gc now gnet).cacheAfter = gc ∧
      (fetchGitHubStats gc now gnet).ui = ("—", "—")) ∧
    (staleOrMissing nc now = true → nnet.isFailure = true →
      (fetchNpmDownloads nc now nnet).cacheAfter = nc ∧
      (fetchNpmDownloads nc now nnet).ui = "—") := by
  constructor
  · intro hstale hfail
    have hgh : ∀ c, (fetchGitHubFresh c now gnet).cacheAfter = c ∧
        (fetchGitHubFresh c now gnet).ui = ("—", "—") := by
      intro c
      cases gnet with
      | success a => simp [FetchOutcome.isFailure] at hfail
      | networkError => exact ⟨rfl, rfl⟩
      | httpError => exact ⟨rfl, rfl⟩
      | malformedBody => exact ⟨rfl, rfl⟩
    match gc with
    | none => simpa [fetchGitHubStats] using hgh none
    | some e =>
        simp only [staleOrMissing, decide_eq_true_eq] at hstale
        have hnot : ¬ (now - e.timestamp < cacheTTL) := by omega
        simpa [fetchGitHubStats, hnot] using hgh (some e)
  · intro hstale hfail
    have hnp : ∀ c, (fetchNpmFresh c now nnet).cacheAfter = c ∧
        (fetchNpmFresh c now nnet).ui = "—" := by
      intro c
      cases nnet with
      | success d => simp [FetchOutcome.isFailure] at hfail
      | networkError => exact ⟨rfl, rfl⟩
      | httpError => exact ⟨rfl, rfl⟩
      | malformedBody => exact ⟨rfl, rfl⟩
    match nc with
    | none => simpa [fetchNpmDownloads] using hnp none
    | some e =>
        simp only [staleOrMissing, decide_eq_true_eq] at hstale
        have hnot : ¬ (now - e.timestamp < cacheTTL) := by omega
        simpa [fetchNpmDownloads, hnot] using hnp (some e)

/-- Witness for C2 at concrete inputs: a failed GitHub refresh with an empty
cache keeps it empty and renders placeholders; a failed npm refresh of a
stale entry keeps the stale entry and renders the placeholder. -/
theorem c2_failure_keeps_cache_witness :
    (fetchGitHubStats none 400000 .networkError).cacheAfter = none ∧
    (fetchGitHubStats none 400000 .networkError).ui = ("—", "—") ∧
    (fetchNpmDownloads (some ⟨7, 0⟩) 400000 .httpError).cacheAfter = some ⟨7, 0⟩ ∧
    (fetchNpmDownloads (some ⟨7, 0⟩) 400000 .httpError).ui = "—" := by
  have h := c2_failure_keeps_cache none (some ⟨7, 0⟩) 400000 .networkError .httpError
  have hg := h.1 (by decide) (by decide)
  have hn := h.2 (by decide) (by decide)
  exact ⟨hg.1, hg.2, hn.1, hn.2⟩

/-- C3: the sticky-nav update classifies a processed offset pair as downward
(hiding the nav and clearing `navVisible`) exactly when the current offset
exceeds both the previous offset and 100, classifies every other case as
upward (showing the nav), treats the boundary offset 100 as upward for every
previous offset, and always stores the current offset as previous. -/
theorem c3_nav_direction (s : NavState) (curr : Nat) :
    ((handleNavScroll s curr).scrollDirection = "down" ↔
      s.lastScrollY < curr ∧ 100 < curr) ∧
    ((handleNavScroll s curr).navVisible = false ↔
      s.lastScrollY < curr ∧ 100 < curr) ∧
    ((handleNavScroll s curr).navHidden = true ↔
      s.lastScrollY < curr ∧ 100 < curr) ∧
    ((handleNavScroll s curr).scrollDirection = "up" ↔
      ¬ (s.lastScrollY < curr ∧ 100 < curr)) ∧
    ((handleNavScroll s curr).navVisible = true ↔
      ¬ (s.lastScrollY < curr ∧ 100 < curr)) ∧
    (handleNavScroll s curr).lastScrollY = curr ∧
    (handleNavScroll s 100).scrollDirection = "up" ∧
    (handleNavScroll s 100).navVisible = true := by
  by_cases h : s.lastScrollY < curr ∧ 100 < curr <;>
    simp [handleNavScroll, h]

/-- C4: one copy-button click with the code block found: on clipboard success
the label becomes `Copied!` with the copied mark set, and the single timer
scheduled 2000ms later restores the original label and clears the mark; on
clipboard failure the label becomes `Failed` and the timer scheduled 2000ms
later installs the literal label `Copy`, not the original. -/
theorem c4_copy_feedback (b : ButtonState) (t : Nat) :
    (copyClick b t .ok).1.label = "Copied!" ∧
    (copyClick b t .ok).1.copied = true ∧
    (copyClick b t .ok).2.fireAt = t + 2000 ∧
    applyTask (copyClick b t .ok).1 (copyClick b t .ok).2 = ⟨b.label, false⟩ ∧
    (copyClick b t .failed).1.label = "Failed" ∧
    (copyClick b t .failed).2.fireAt = t + 2000 ∧
    (applyTask (copyClick b t .failed).1 (copyClick b t .failed).2).label = "Copy" :=
  ⟨rfl, rfl, rfl, rfl, rfl, rfl, rfl⟩

/-- C5 counterexample: the click handler never cancels a pending timer, so a
second successful click 1000ms after the first leaves TWO pending restores,
not a restarted single one; both fire, and because the second click captured
the feedback text `Copied!` as its original label, the button ends showing
`Copied!` instead of the original `Copy` that a restarted last-click-wins
timer would restore. -/
theorem c5_timer_counterexample :
    (sysClick (sysClick ⟨⟨"Copy", false⟩, []⟩ 0 .ok) 1000 .ok).timers.length = 2 ∧
    (runTimers (sysClick (sysClick ⟨⟨"Copy", false⟩, []⟩ 0 .ok) 1000 .ok)).label =
      "Copied!" ∧
    ¬ (runTimers (sysClick (sysClick ⟨⟨"Copy", false⟩, []⟩ 0 .ok) 1000 .ok)).label =
      "Copy" := by
  decide

/-- C5 amended: a repeated click before the pending 2000ms restore fires does
NOT restart that timer — both restores stay queued and fire, each 2000ms
after its own click, and the later click restores the label it captured (the
feedback text `Copied!`), so the last write is the feedback text rather than
the original label; separately, the timers of each button are independent of
every other button. -/
theorem c5_timers_not_cancelled :
    (∀ (orig : String) (c : Bool) (t1 t2 : Nat), t1 ≤ t2 → t2 < t1 + 2000 →
      (sysClick (sysClick ⟨⟨orig, c⟩, []⟩ t1 .ok) t2 .ok).timers =
        [⟨t1 + 2000, orig, true⟩, ⟨t2 + 2000, "Copied!", true⟩] ∧
      (runTimers (sysClick (sysClick ⟨⟨orig, c⟩, []⟩ t1 .ok) t2 .ok)).label =
        "Copied!" ∧
      (runTimers (sysClick (sysClick ⟨⟨orig, c⟩, []⟩ t1 .ok) t2 .ok)).copied =
        false) ∧
    (∀ (p : CopySystem × CopySystem) (t : Nat) (o : ClipboardOutcome),
      (clickFst p t o).2 = p.2 ∧ (clickSnd p t o).1 = p.1) := by
  constructor
  · intro orig c t1 t2 h1 h2
    have hle : t1 + 2000 ≤ t2 + 2000 := by omega
    refine ⟨?_, ?_, ?_⟩ <;>
      simp [sysClick, copyClick, schedule, runTimers, applyTask, hle]
  · intro p t o
    exact ⟨rfl, rfl⟩

/-- Witness for the amended C5 at concrete inputs: two successful clicks at
500ms and 600ms leave both restores queued and end at `Copied!`. -/
theorem c5_timers_not_cancelled_witness :
    (sysClick (sysClick ⟨⟨"Copy", false⟩, []⟩ 500 .ok) 600 .ok).timers =
      [⟨2500, "Copy", true⟩, ⟨2600, "Copied!", true⟩] ∧
    (runTimers (sysClick (sysClick ⟨⟨"Copy", false⟩, []⟩ 500 .ok) 600 .ok)).label =
      "Copied!" ∧
    (clickFst (⟨⟨"Copy", false⟩, []⟩, ⟨⟨"Copy", true⟩, []⟩) 0 .ok).2 =
      ⟨⟨"Copy", true⟩, []⟩ := by
  have h := c5_timers_not_cancelled.1 "Copy" false 500 600 (by omega) (by omega)
  have h2 := c5_timers_not_cancelled.2 (⟨⟨"Copy", false⟩, []⟩, ⟨⟨"Copy", true⟩, []⟩) 0 .ok
  exact ⟨h.1, h.2.1, h2.1⟩

/-- C6: an anchor click whose fragment matches no element in the page makes
the handler perform no action — the resulting page state (scroll offset, URL
fragment, history length) is unchanged, no scroll command is issued, and the
default action is not suppressed. -/
theorem c6_missing_anchor (dom : List (String × Int)) (p : PageState)
    (href : String) (h : domFind dom href = none) :
    (smoothScrollClick dom p href).page = p ∧
    (smoothScrollClick dom p href).scrollCommand = none ∧
    (smoothScrollClick dom p href).defaultPrevented = false := by
  by_cases hh : href = "#"
  · simp [smoothScrollClick, hh]
  · simp [smoothScrollClick, hh, h]

/-- Witness for C6 at a concrete input: a page with only a `#top` element and
a click on `#missing-id`. -/
theorem c6_missing_anchor_witness :
    (smoothScrollClick [("#top", 0)] ⟨120, "", 1⟩ "#missing-id").page =
      ⟨120, "", 1⟩ ∧
    (smoothScrollClick [("#top", 0)] ⟨120, "", 1⟩ "#missing-id").scrollCommand =
      none ∧
    (smoothScrollClick [("#top", 0)] ⟨120, "", 1⟩ "#missing-id").defaultPrevented =
      false :=
  c6_missing_anchor [("#top", 0)] ⟨120, "", 1⟩ "#missing-id" (by decide)

/-- C7 counterexample: on a click on `#features` (element top 500, scroll 200,
history length 1) the handler issues the smooth scroll to 620 and rewrites
the fragment, but it does so with `history.pushState`, which appends a NEW
history entry — the history length grows from 1 to 2, contradicting the
claim that no new navigation/history entry is pushed. -/
theorem c7_pushstate_counterexample :
    (smoothScrollClick [("#features", 500)] ⟨200, "", 1⟩ "#features").page.fragment =
      "#features" ∧
    (smoothScrollClick [("#features", 500)] ⟨200, "", 1⟩ "#features").scrollCommand =
      some 620 ∧
    (smoothScrollClick [("#features", 500)] ⟨200, "", 1⟩ "#features").page.historyLen =
      2 ∧
    ¬ (smoothScrollClick [("#features", 500)] ⟨200, "", 1⟩ "#features").page.historyLen =
      1 := by
  decide

/-- C7 amended: for every anchor click whose target exists, the default jump
is suppressed, a smooth scroll to (target top + current scroll − 80) is
issued, and the visible URL fragment is then updated to the fragment of the
link BY PUSHING ONE NEW history entry (`history.pushState`); the URL update
itself moves neither the scroll offset nor issues any further scroll
command. -/
theorem c7_pushstate_amended (dom : List (String × Int)) (p : PageState)
    (href : String) (top : Int) (hne : href ≠ "#")
    (hfind : domFind dom href = some top) :
    (smoothScrollClick dom p href).defaultPrevented = true ∧
    (smoothScrollClick dom p href).scrollCommand = some (top + p.scrollY - 80) ∧
    (smoothScrollClick dom p href).page.fragment = href ∧
    (smoothScrollClick dom p href).page.historyLen = p.historyLen + 1 ∧
    (smoothScrollClick dom p href).page.scrollY = p.scrollY := by
  simp [smoothScrollClick, hne, hfind]

/-- Witness for the amended C7 at a concrete input. -/
theorem c7_pushstate_amended_witness :
    (smoothScrollClick [("#install", 300)] ⟨100, "", 3⟩ "#install").defaultPrevented =
      true ∧
    (smoothScrollClick [("#install", 300)] ⟨100, "", 3⟩ "#install").scrollCommand =
      some 320 ∧
    (smoothScrollClick [("#install", 300)] ⟨100, "", 3⟩ "#install").page.fragment =
      "#install" ∧
    (smoothScrollClick [("#install", 300)] ⟨100, "", 3⟩ "#install").page.historyLen =
      4 ∧
    (smoothScrollClick [("#install", 300)] ⟨100, "", 3⟩ "#install").page.scrollY =
      100 :=
  c7_pushstate_amended [("#install", 300)] ⟨100, "", 3⟩ "#install" 300
    (by decide) (by decide)

/-- C8: `formatNumber` renders 999 verbatim, 1500 as `1.5k`, 2500000 as
`2.5M`; in general numbers of at least one million render as one-decimal
millions with suffix `M`, numbers of at least one thousand below a million as
one-decimal thousands with suffix `k`, and smaller numbers verbatim; and a
null value renders as the em-dash placeholder in every badge. -/
theorem c8_format_number :
    formatNumber 999 = "999" ∧
    formatNumber 1500 = "1.5k" ∧
    formatNumber 2500000 = "2.5M" ∧
    (∀ n : Nat, 1000000 ≤ n → formatNumber n = toFixed1 n 1000000 ++ "M") ∧
    (∀ n : Nat, 1000 ≤ n → n < 1000000 → formatNumber n = toFixed1 n 1000 ++ "k") ∧
    (∀ n : Nat, n < 1000 → formatNumber n = toString n) ∧
    updateNpmUI none = "—" ∧
    updateGitHubUI ⟨none, none⟩ = ("—", "—") := by
  refine ⟨by decide, by decide, by decide, ?_, ?_, ?_, rfl, rfl⟩
  · intro n h
    simp [formatNumber, h]
  · intro n h1 h2
    have hm : ¬ (n ≥ 1000000) := by omega
    simp [formatNumber, hm, h1]
  · intro n h
    have hm : ¬ (n ≥ 1000000) := by omega
    have hk : ¬ (n ≥ 1000) := by omega
    simp [formatNumber, hm, hk]

/-- Witness for C8 at concrete inputs in each magnitude band. -/
theorem c8_format_number_witness :
    formatNumber 3200000 = toFixed1 3200000 1000000 ++ "M" ∧
    formatNumber 45600 = toFixed1 45600 1000 ++ "k" ∧
    formatNumber 7 = toString 7 :=
  ⟨c8_format_number.2.2.2.1 3200000 (by decide),
   c8_format_number.2.2.2.2.1 45600 (by decide) (by decide),
   c8_format_number.2.2.2.2.2.1 7 (by decide)⟩

/-- One menu event moves the open flag exactly as the spec-side two-state
machine does (on pages that have an overlay element). -/
theorem menuStep_flag (s : MenuState) (e : MenuEvent) :
    (menuStep true s e).mobileMenuOpen = specMenuFlag s.mobileMenuOpen e := by
  cases e <;> cases hb : s.mobileMenuOpen <;>
    simp [menuStep, toggleMobileMenu, openMobileMenu, closeMobileMenu,
      specMenuFlag, hb]

/-- A whole event sequence moves the open flag exactly as the spec-side
machine does. -/
theorem runMenu_flag (es : List MenuEvent) (s : MenuState) :
    (runMenu true s es).mobileMenuOpen = specRunFlags s.mobileMenuOpen es := by
  induction es generalizing s with
  | nil => rfl
  | cons e rest ih =>
      show (runMenu true (menuStep true s e) rest).mobileMenuOpen =
        specRunFlags (specMenuFlag s.mobileMenuOpen e) rest
      rw [← menuStep_flag s e]
      exact ih (menuStep true s e)

/-- C9: the mobile menu is the two-state machine the spec describes — a
hamburger click toggles the open flag, an overlay click, a nav-link click, or
Escape always leaves it closed (a no-op when already closed) — and over every
sequence of these events the implementation agrees with that machine. -/
theorem c9_menu_machine (s : MenuState) (es : List MenuEvent) :
    (menuStep true s .hamburger).mobileMenuOpen = !s.mobileMenuOpen ∧
    (menuStep true s .overlayClick).mobileMenuOpen = false ∧
    (menuStep true s .linkClick).mobileMenuOpen = false ∧
    (menuStep true s .escape).mobileMenuOpen = false ∧
    (runMenu true s es).mobileMenuOpen = specRunFlags s.mobileMenuOpen es :=
  ⟨menuStep_flag s .hamburger, menuStep_flag s .overlayClick,
   menuStep_flag s .linkClick, menuStep_flag s .escape, runMenu_flag es s⟩

/-- Opening the menu preserves the styling invariant. -/
theorem menuInv_open (hasOverlay : Bool) (s : MenuState)
    (hs : menuInv hasOverlay s) : menuInv hasOverlay (openMobileMenu hasOverlay s) := by
  obtain ⟨h1, h2, h3, h4, h5⟩ := hs
  cases hasOverlay with
  | true => simp [menuInv, openMobileMenu]
  | false => simp [menuInv, openMobileMenu, h4 rfl]

/-- Closing the menu preserves the styling invariant. -/
theorem menuInv_close (hasOverlay : Bool) (s : MenuState)
    (hs : menuInv hasOverlay s) : menuInv hasOverlay (closeMobileMenu hasOverlay s) := by
  obtain ⟨h1, h2, h3, h4, h5⟩ := hs
  cases hasOverlay with
  | true => simp [menuInv, closeMobileMenu]
  | false => simp [menuInv, closeMobileMenu, h4 rfl]

/-- Every menu event preserves the styling invariant. -/
theorem menuInv_step (hasOverlay : Bool) (s : MenuState) (e : MenuEvent)
    (hs : menuInv hasOverlay s) : menuInv hasOverlay (menuStep hasOverlay s e) := by
  cases e with
  | hamburger =>
      unfold menuStep toggleMobileMenu
      by_cases hb : s.mobileMenuOpen = true
      · simp only [hb, if_true]
        exact menuInv_close hasOverlay s hs
      · simp only [Bool.not_eq_true] at hb
        simp only [hb, Bool.false_eq_true, if_false]
        exact menuInv_open hasOverlay s hs
  | overlayClick =>
      unfold menuStep
      cases hasOverlay with
      | true => exact menuInv_close true s hs
      | false => exact hs
  | linkClick => exact menuInv_close hasOverlay s hs
  | escape =>
      unfold menuStep
      by_cases hb : s.mobileMenuOpen = true
      · simp only [hb, if_true]
        exact menuInv_close hasOverlay s hs
      · simp only [Bool.not_eq_true] at hb
        simp only [hb, Bool.false_eq_true, if_false]
        exact hs

/-- Every event sequence preserves the styling invariant. -/
theorem menuInv_run (hasOverlay : Bool) (es : List MenuEvent) (s : MenuState)
    (hs : menuInv hasOverlay s) : menuInv hasOverlay (runMenu hasOverlay s es) := by
  induction es generalizing s with
  | nil => exact hs
  | cons e rest ih => exact ih (menuStep hasOverlay s e) (menuInv_step hasOverlay s e hs)

/-- C10: after any mobile-menu transition the open flag agrees exactly with
the styling — the `active` class on the links, the hamburger and (when an
overlay exists) the overlay, and the suppression of body scrolling — and when
the flag is false all the stylings are absent and body scrolling is restored:
the invariant holds initially, is preserved by every event, and therefore
holds after every event sequence from page load. -/
theorem c10_menu_invariant (hasOverlay : Bool) :
    menuInv hasOverlay menuInitState ∧
    (∀ (s : MenuState) (e : MenuEvent), menuInv hasOverlay s →
      menuInv hasOverlay (menuStep hasOverlay s e)) ∧
    (∀ (es : List MenuEvent), menuInv hasOverlay (runMenu hasOverlay menuInitState es)) := by
  have hinit : menuInv hasOverlay menuInitState := by
    cases hasOverlay <;> decide
  exact ⟨hinit, menuInv_step hasOverlay,
    fun es => menuInv_run hasOverlay es menuInitState hinit⟩

/-- Witness for C10 at a concrete input: the invariant after a hamburger
click from the initial state, on a page with an overlay. -/
theorem c10_menu_invariant_witness :
    menuInv true (menuStep true menuInitState .hamburger) :=
  (c10_menu_invariant true).2.1 menuInitState .hamburger (by decide)

end OMX
